import Mathlib

/-!
# Verification of the telecom plan recommender webapp

A shallow embedding of the Python sources of `Python-base-webapp`:

* `src/app/model/recommender.py` — the rule-based recommendation engine
  (`PLAN_CATALOG`, `recommend_plan`): embedded below over dynamic,
  dict-shaped records (`DynRecord`) whose field values (`Val`) are either
  numbers or strings, with Python coercion (`float`, `int`) made explicit
  as `Except`-valued functions, since Python raises on non-numeric strings.
* `src/app/main.py` — the cached multi-source data loading
  (`load_data` / `ensure_customer_data_available`), the shared
  filter/sort/limit helper (`apply_filters_sort_limit`) and the query
  endpoints (`customers`, `recommend`, `top_savings`, `top_upsell`,
  `summary_stats`).

Numbers are modelled as exact rationals (`ℚ`); Python `float`
arithmetic is treated as exact real arithmetic.  Python `round` is
round-half-to-even, modelled by `pyRound` on rationals.
-/

namespace PlanApp

/-! ## Dynamic field values and dict-shaped records -/

/-- A Python value stored in a customer dict: a number or a string.  This is
the value domain needed by `recommend_plan`, which reads fields with
`customer.get(key, default)` and coerces them with `float(...)` / `int(...)`. -/
inductive Val where
  | num (q : ℚ)
  | str (s : String)
deriving DecidableEq

/-- A Python dict with string keys, as an association list (first binding
wins, like repeated lookups in a dict built once). -/
abbrev DynRecord := List (String × Val)

/-- `customer.get(k, d)`: the value bound to `k`, or the default `d`. -/
def dynGet (r : DynRecord) (k : String) (d : Val) : Val :=
  (List.lookup k r).getD d

/-- Digits of a nonempty all-digit character list, as a natural number. -/
def digitsVal? (cs : List Char) : Option ℕ :=
  if cs ≠ [] ∧ cs.all Char.isDigit then
    some (cs.foldl (fun acc c => 10 * acc + (c.toNat - 48)) 0)
  else none

/-- An unsigned decimal literal: `digits`, `digits.digits`, `digits.` or
`.digits`.  This is the fragment of Python float-literal syntax the
repository's data can contain; exponents, `inf`, `nan`, underscores and
surrounding whitespace are outside the model. -/
def parseUnsignedDec? (cs : List Char) : Option ℚ :=
  let intPart := cs.takeWhile Char.isDigit
  let rest := cs.dropWhile Char.isDigit
  match rest with
  | [] =>
      match digitsVal? intPart with
      | some n => some (n : ℚ)
      | none => none
  | '.' :: frac =>
      if frac.all Char.isDigit ∧ (intPart ≠ [] ∨ frac ≠ []) then
        let ip : ℕ := (digitsVal? intPart).getD 0
        let fp : ℕ := (digitsVal? frac).getD 0
        some ((ip : ℚ) + (fp : ℚ) / ((10 : ℚ) ^ frac.length))
      else none
  | _ => none

/-- Python `float(s)` on a string: optional sign, then a decimal literal. -/
def pyFloatOfString? (s : String) : Option ℚ :=
  match s.toList with
  | '-' :: t => (parseUnsignedDec? t).map (fun q => -q)
  | '+' :: t => parseUnsignedDec? t
  | t => parseUnsignedDec? t

/-- Python `int(s)` on a string: optional sign, then digits only
(`int("7.5")` raises). -/
def pyIntOfString? (s : String) : Option ℤ :=
  match s.toList with
  | '-' :: t => (digitsVal? t).map (fun n => -(n : ℤ))
  | '+' :: t => (digitsVal? t).map (fun n => (n : ℤ))
  | t => (digitsVal? t).map (fun n => (n : ℤ))

/-- Python `float(v)`: numbers pass through, strings are parsed, anything
unparseable raises `ValueError` (modelled as `Except.error`). -/
def pyFloat : Val → Except String ℚ
  | .num q => .ok q
  | .str s =>
      match pyFloatOfString? s with
      | some q => .ok q
      | none => .error ("could not convert string to float: " ++ s)

/-- Truncation of a rational toward zero, the behaviour of Python `int`
on a float (`Int.div` is T-division). -/
def ratTrunc (q : ℚ) : ℤ := q.num.tdiv (q.den : ℤ)

/-- Python `int(v)`: floats truncate toward zero, strings must be integer
literals, anything else raises (modelled as `Except.error`). -/
def pyInt : Val → Except String ℤ
  | .num q => .ok (ratTrunc q)
  | .str s =>
      match pyIntOfString? s with
      | some n => .ok n
      | none => .error ("invalid literal for int with base 10: " ++ s)

/-- Python `round(q)`: round half to even, on exact rationals.  With `n/d`
the reduced fraction, `f = ⌊q⌋ = n.fdiv d`, and the fractional part `q - f`
compares to `1/2` as `2 * (n - f * d)` compares to `d`; exact halves go to
the even neighbour. -/
def pyRound (q : ℚ) : ℤ :=
  let n := q.num
  let d := (q.den : ℤ)
  let f := n.fdiv d
  let r2 := 2 * (n - f * d)
  if r2 < d then f
  else if d < r2 then f + 1
  else if f % 2 = 0 then f else f + 1

/-- Python `round(q, 2)`, on exact rationals. -/
def round2 (q : ℚ) : ℚ := ((pyRound (q * 100) : ℚ)) / 100

/-! ## The plan catalog and the recommendation engine
(`src/app/model/recommender.py`) -/

/-- One tier of `PLAN_CATALOG`. -/
structure Plan where
  name : String
  data_gb : ℚ
  minutes : ℚ
  sms : ℚ
  price : ℚ
deriving DecidableEq

def basicPlan : Plan := ⟨"Basic", 10, 200, 100, 199⟩
def standardPlan : Plan := ⟨"Standard", 50, 1000, 500, 499⟩
def premiumPlan : Plan := ⟨"Premium", 200, 3000, 2000, 999⟩

/-- `PLAN_CATALOG`, the fixed ordered three-tier catalog. -/
def PLAN_CATALOG : List Plan := [basicPlan, standardPlan, premiumPlan]

/-- The plan-selection rules of `recommend_plan` (lines 15-20 of
`recommender.py`): a priority chain with strict `<` thresholds. -/
def selectPlan (data mins sms : ℚ) : Plan :=
  if data < 8 ∧ mins < 300 ∧ sms < 150 then basicPlan
  else if data < 80 ∧ mins < 1500 ∧ sms < 1000 then standardPlan
  else premiumPlan

/-- Numeric rendering used inside the reason string.  Python prints floats
(`5.0`) where `toString (5 : ℚ)` prints `5`; no claim depends on the exact
rendering, only on the structure of the string. -/
def ratStr (q : ℚ) : String := toString q

/-- The closing clause of the reason string (lines 26-29). -/
def reasonText (savings : ℚ) : String :=
  if 0 < savings then "to save money"
  else "for better data benefits and to avoid extra charges"

/-- The `recommendation_reason` f-string (lines 31-35); `spend:.0f` is
rounding to zero decimals, i.e. `pyRound`. -/
def recommendationReason (spend data mins sms : ℚ) (p : Plan) (savings : ℚ) :
    String :=
  "Customer currently spends ₹" ++ toString (pyRound spend) ++
  "/month. Based on their usage (" ++ ratStr data ++ "GB data, " ++
  ratStr mins ++ " mins calls, " ++ ratStr sms ++ " SMS), the " ++
  p.name ++ " plan at ₹" ++ ratStr p.price ++ " is recommended " ++
  reasonText savings ++ "."

/-- The dict returned by `recommend_plan` (lines 37-43). -/
structure Recommendation where
  customer_id : ℤ
  recommended_plan : String
  estimated_monthly_bill : ℚ
  estimated_savings : ℚ
  recommendation_reason : String
deriving DecidableEq

/-- The body of `recommend_plan` after the four float coercions and the
id coercion have succeeded: plan selection, savings, reason, result dict. -/
def mkRecommendation (cid : ℤ) (data mins sms spend : ℚ) : Recommendation :=
  let plan := selectPlan data mins sms
  let savings := spend - plan.price
  { customer_id := cid
    recommended_plan := plan.name
    estimated_monthly_bill := plan.price
    estimated_savings := round2 savings
    recommendation_reason := recommendationReason spend data mins sms plan savings }

/-- `recommend_plan(customer)` (lines 8-43 of `recommender.py`).  The four
usage fields are read with default `0` and coerced with `float`; the
customer id is read with default `-1` and coerced with `int`.  A coercion
failure is a raised `ValueError`, modelled as `Except.error`; the coercions
are evaluated in source order. -/
def recommend_plan (customer : DynRecord) : Except String Recommendation :=
  match pyFloat (dynGet customer "avg_monthly_data_gb" (.num 0)) with
  | .error e => .error e
  | .ok data =>
    match pyFloat (dynGet customer "avg_monthly_minutes" (.num 0)) with
    | .error e => .error e
    | .ok mins =>
      match pyFloat (dynGet customer "avg_monthly_sms" (.num 0)) with
      | .error e => .error e
      | .ok sms =>
        match pyFloat (dynGet customer "avg_monthly_spend" (.num 0)) with
        | .error e => .error e
        | .ok spend =>
          match pyInt (dynGet customer "customer_id" (.num (-1))) with
          | .error e => .error e
          | .ok cid => .ok (mkRecommendation cid data mins sms spend)

/-! ## Typed customer rows

A row of the customer table once schema normalization has given every
expected column a value of its expected type (`customer_id` integral,
usage and spend numeric, `name`/`region` strings).  `Customer.toDyn` is
the dict `row.to_dict()` passed to `recommend_plan` by the endpoints. -/

structure Customer where
  customer_id : ℤ
  name : String
  region : String
  avg_monthly_data_gb : ℚ
  avg_monthly_minutes : ℚ
  avg_monthly_sms : ℚ
  avg_monthly_spend : ℚ
deriving DecidableEq

def Customer.toDyn (c : Customer) : DynRecord :=
  [("customer_id", .num (c.customer_id : ℚ)),
   ("name", .str c.name),
   ("region", .str c.region),
   ("avg_monthly_data_gb", .num c.avg_monthly_data_gb),
   ("avg_monthly_minutes", .num c.avg_monthly_minutes),
   ("avg_monthly_sms", .num c.avg_monthly_sms),
   ("avg_monthly_spend", .num c.avg_monthly_spend)]

/-- `recommend_plan` on a well-typed row, as a total function. -/
def recommendC (c : Customer) : Recommendation :=
  mkRecommendation c.customer_id c.avg_monthly_data_gb c.avg_monthly_minutes
    c.avg_monthly_sms c.avg_monthly_spend

/-! ## The query pipeline (`src/app/main.py`)

`apply_filters_sort_limit(df, results, default_sort, default_order)` reads
the query parameters `region`, `sort`, `order`, `limit`; `Params` holds
them after HTTP parsing: `limit` is the value of `int(args.get("limit", 10))`
with 10 on a parse failure, so it can be any integer. -/

structure Params where
  region : Option String
  sort : Option String
  order : Option String
  limit : ℤ
deriving DecidableEq

/-- Python truthiness of an optional string parameter: absent and the empty
string are falsy. -/
def truthy : Option String → Bool
  | some s => s ≠ ""
  | none => false

/-- ASCII lowercasing of one character. -/
def lowerChar (c : Char) : Char :=
  if 65 ≤ c.toNat ∧ c.toNat ≤ 90 then Char.ofNat (c.toNat + 32) else c

/-- Python `s.lower()`; region names and sort orders are ASCII, so ASCII
lowercasing is the needed fragment. -/
def lowerStr (s : String) : String := ⟨s.data.map lowerChar⟩

/-- Python `l[:n]`: for `n ≥ 0` the first `n` elements, for `n < 0` all but
the last `-n`. -/
def pySlice {α : Type} (l : List α) (n : ℤ) : List α :=
  if 0 ≤ n then l.take n.toNat
  else l.take ((l.length : ℤ) + n).toNat

/-- Insert into a sorted list, before the first element `b` with `le a b`:
the insertion step of a stable sort. -/
def insertSorted {α : Type} (le : α → α → Bool) (a : α) : List α → List α
  | [] => [a]
  | b :: bs => if le a b then a :: b :: bs else b :: insertSorted le a bs

/-- Stable insertion sort.  Python `sorted` is a stable sort, and a stable
sort is determined uniquely by the boolean `le` when `le` is a total
preorder, so this is a faithful model of `sorted(results, key=..., reverse=...)`. -/
def insertionSort {α : Type} (le : α → α → Bool) : List α → List α
  | [] => []
  | a :: as => insertSorted le a (insertionSort le as)

/-- The region filter of `apply_filters_sort_limit` (lines 169-172 of
`main.py`): applied only when the `region` parameter is truthy and the
dataframe is non-empty; case-insensitive equality.  (The parallel filter of
the local `df` variable is dead code and is not modelled.) -/
def filteredResults {α : Type} (regionOf : α → String) (p : Params)
    (dfEmpty : Bool) (results : List α) : List α :=
  if truthy p.region && !dfEmpty then
    results.filter (fun r => lowerStr (regionOf r) == lowerStr (p.region.getD ""))
  else results

/-- The sort of `apply_filters_sort_limit` (lines 175-183): only when the
result list is non-empty and the sort column is a key of its records
(`sort_col in results[0]`); `reverse=(order.lower()=="desc")` flips the
comparison, stability preserved. -/
def sortStep {α : Type} (colPresent : String → Bool)
    (asc : String → α → α → Bool) (p : Params)
    (defaultSort defaultOrder : String) (results : List α) : List α :=
  let sortCol := p.sort.getD defaultSort
  let sortOrder := p.order.getD defaultOrder
  if results.isEmpty then results
  else if colPresent sortCol then
    insertionSort
      (fun a b => if lowerStr sortOrder == "desc" then asc sortCol b a
                  else asc sortCol a b) results
  else results

/-- `apply_filters_sort_limit` (lines 164-191 of `main.py`): region filter,
sort, then `results[:limit], len(results)`. -/
def apply_filters_sort_limit {α : Type} (regionOf : α → String)
    (colPresent : String → Bool) (asc : String → α → α → Bool)
    (defaultSort defaultOrder : String) (p : Params) (dfEmpty : Bool)
    (results : List α) : List α × ℕ :=
  let f := filteredResults regionOf p dfEmpty results
  let s := sortStep colPresent asc p defaultSort defaultOrder f
  (pySlice s p.limit, s.length)

/-- The source-of-truth column set (also the keys of a `/customers` record). -/
def EXPECTED_COLUMNS : List String :=
  ["customer_id", "name", "region", "avg_monthly_data_gb",
   "avg_monthly_minutes", "avg_monthly_sms", "avg_monthly_spend"]

def customerColPresent (c : String) : Bool := EXPECTED_COLUMNS.contains c

/-- Ascending comparison of two customer records by a named column
(Python compares ints/floats numerically and strings by code point). -/
def customerAsc (col : String) (a b : Customer) : Bool :=
  if col == "customer_id" then decide (a.customer_id ≤ b.customer_id)
  else if col == "name" then decide (a.name ≤ b.name)
  else if col == "region" then decide (a.region ≤ b.region)
  else if col == "avg_monthly_data_gb" then
    decide (a.avg_monthly_data_gb ≤ b.avg_monthly_data_gb)
  else if col == "avg_monthly_minutes" then
    decide (a.avg_monthly_minutes ≤ b.avg_monthly_minutes)
  else if col == "avg_monthly_sms" then
    decide (a.avg_monthly_sms ≤ b.avg_monthly_sms)
  else if col == "avg_monthly_spend" then
    decide (a.avg_monthly_spend ≤ b.avg_monthly_spend)
  else true

/-! ## Responses and the endpoints -/

/-- A boundary response: a JSON body with status 200, or a 404-equivalent
error body. -/
inductive Resp (α : Type) where
  | ok (body : α)
  | notFound (msg : String)
deriving DecidableEq

/-- `GET /customers` (lines 204-217): empty table short-circuits to an empty
200 collection; otherwise the seven-column projection (the row itself)
through `apply_filters_sort_limit` with default sort `customer_id` asc. -/
def customers_endpoint (rows : List Customer) (p : Params) :
    Resp (List Customer × ℕ) :=
  if rows.isEmpty then .ok ([], 0)
  else .ok (apply_filters_sort_limit Customer.region customerColPresent
    customerAsc "customer_id" "asc" p rows.isEmpty rows)

/-- `GET /recommend/<customer_id>` (lines 220-229): 404 on an empty table,
404 when no row matches, else `recommend_plan` on the first matching row. -/
def recommend_endpoint (rows : List Customer) (cid : ℤ) :
    Resp Recommendation :=
  if rows.isEmpty then .notFound "No data loaded"
  else
    match rows.find? (fun r => r.customer_id == cid) with
    | some r => .ok (recommendC r)
    | none => .notFound "Customer not found"

/-- The record `{customer_id, name, region, **rec}` appended by
`top_savings` / `top_upsell`; `rec` is unpacked last, so its
`customer_id` wins. -/
structure OutRec where
  customer_id : ℤ
  name : String
  region : String
  recommended_plan : String
  estimated_monthly_bill : ℚ
  estimated_savings : ℚ
  recommendation_reason : String
deriving DecidableEq

def mkOut (row : Customer) (r : Recommendation) : OutRec :=
  ⟨r.customer_id, row.name, row.region, r.recommended_plan,
   r.estimated_monthly_bill, r.estimated_savings, r.recommendation_reason⟩

def outCols : List String :=
  ["customer_id", "name", "region", "recommended_plan",
   "estimated_monthly_bill", "estimated_savings", "recommendation_reason"]

def outColPresent (c : String) : Bool := outCols.contains c

def outAsc (col : String) (a b : OutRec) : Bool :=
  if col == "customer_id" then decide (a.customer_id ≤ b.customer_id)
  else if col == "name" then decide (a.name ≤ b.name)
  else if col == "region" then decide (a.region ≤ b.region)
  else if col == "recommended_plan" then
    decide (a.recommended_plan ≤ b.recommended_plan)
  else if col == "estimated_monthly_bill" then
    decide (a.estimated_monthly_bill ≤ b.estimated_monthly_bill)
  else if col == "estimated_savings" then
    decide (a.estimated_savings ≤ b.estimated_savings)
  else if col == "recommendation_reason" then
    decide (a.recommendation_reason ≤ b.recommendation_reason)
  else true

/-- The classification loop of `top_savings` (lines 238-247): keep the rows
whose recommendation has strictly positive `estimated_savings`. -/
def top_savings_rows (rows : List Customer) : List OutRec :=
  rows.filterMap (fun row =>
    if 0 < (recommendC row).estimated_savings then
      some (mkOut row (recommendC row)) else none)

/-- The classification loop of `top_upsell` (lines 259-268): keep the rows
whose recommendation has strictly negative `estimated_savings`. -/
def top_upsell_rows (rows : List Customer) : List OutRec :=
  rows.filterMap (fun row =>
    if (recommendC row).estimated_savings < 0 then
      some (mkOut row (recommendC row)) else none)

/-- `GET /top_savings` (lines 232-250): 404 on an empty table, else the
positive-savings rows through the helper, default sort `estimated_savings`
descending. -/
def top_savings_endpoint (rows : List Customer) (p : Params) :
    Resp (List OutRec × ℕ) :=
  if rows.isEmpty then .notFound "No data loaded"
  else .ok (apply_filters_sort_limit OutRec.region outColPresent outAsc
    "estimated_savings" "desc" p rows.isEmpty (top_savings_rows rows))

/-- `GET /top_upsell` (lines 253-271): 404 on an empty table, else the
negative-savings rows through the helper, default sort `estimated_savings`
ascending. -/
def top_upsell_endpoint (rows : List Customer) (p : Params) :
    Resp (List OutRec × ℕ) :=
  if rows.isEmpty then .notFound "No data loaded"
  else .ok (apply_filters_sort_limit OutRec.region outColPresent outAsc
    "estimated_savings" "asc" p rows.isEmpty (top_upsell_rows rows))

/-! ## `GET /summary_stats` (lines 274-325) -/

/-- A row of the dataframe after `summary_stats` adds the `rec` and
`savings` columns. -/
structure SummaryRow where
  row : Customer
  rcm : Recommendation
  savings : ℚ
deriving DecidableEq

def summaryCols : List String := EXPECTED_COLUMNS ++ ["rec", "savings"]

def summaryColPresent (c : String) : Bool := summaryCols.contains c

/-- Ascending comparison of summary rows by a named column.  Sorting by the
`rec` column would compare dicts and raise `TypeError` in Python; the model
gives that column all-equal keys, so the stable sort leaves the order
unchanged (no claim exercises it). -/
def summaryAsc (col : String) (a b : SummaryRow) : Bool :=
  if col == "savings" then decide (a.savings ≤ b.savings)
  else if col == "rec" then true
  else customerAsc col a.row b.row

/-- The body of a 200 `summary_stats` response. -/
structure Summary where
  region : String
  total_customers : ℕ
  avg_monthly_spend : ℚ
  total_current_spend : ℚ
  savings_count : ℕ
  total_potential_savings : ℚ
  upsell_count : ℕ
  total_potential_revenue : ℚ
  sample : List SummaryRow
deriving DecidableEq

/-- `GET /summary_stats`: 404 on an empty table; region filter at the
dataframe level, 404 when it leaves no rows; aggregates over the filtered
(not paginated) set, `sample` through `apply_filters_sort_limit` with
default sort `savings` descending.  (In Python the 404 message quotes the
region name; the quoting characters are elided here.) -/
def summary_stats_endpoint (rows : List Customer) (p : Params) :
    Resp Summary :=
  if rows.isEmpty then .notFound "No data loaded"
  else
    let reg := p.region.getD ""
    let rows2 := if truthy p.region then
        rows.filter (fun r => lowerStr r.region == lowerStr reg)
      else rows
    if rows2.isEmpty then
      .notFound ("No data found for region " ++ reg)
    else
      let total_customers := rows2.length
      let total_spend := (rows2.map Customer.avg_monthly_spend).sum
      let avg_spend := total_spend / (total_customers : ℚ)
      let srows := rows2.map (fun r =>
        SummaryRow.mk r (recommendC r) (recommendC r).estimated_savings)
      let sample := (apply_filters_sort_limit (fun sr => sr.row.region)
        summaryColPresent summaryAsc "savings" "desc" p rows2.isEmpty srows).1
      let savingsRows := srows.filter (fun sr => 0 < sr.savings)
      let upsellRows := srows.filter (fun sr => sr.savings < 0)
      let savings_count := savingsRows.length
      let upsell_count := upsellRows.length
      let total_savings_amount :=
        if 0 < savings_count then (savingsRows.map SummaryRow.savings).sum else 0
      let total_upsell_amount :=
        if 0 < upsell_count then -((upsellRows.map SummaryRow.savings).sum) else 0
      .ok { region := if truthy p.region then reg else "All"
            total_customers := total_customers
            avg_monthly_spend := round2 avg_spend
            total_current_spend := round2 total_spend
            savings_count := savings_count
            total_potential_savings := round2 total_savings_amount
            upsell_count := upsell_count
            total_potential_revenue := round2 total_upsell_amount
            sample := sample }

/-! ## The data-access layer (`load_data`, lines 93-161 of `main.py`)

`load_data` and `ensure_customer_data_available` perform IO; they are
embedded with an explicit environment `Env` recording what each external
source would yield, and with the module-global `_customers_cache`
threaded explicitly: `load_data env cache = (returned table, new cache)`.

A dataframe is `DF`: its column list and its rows as dynamic records. -/

structure DF where
  cols : List String
  rows : List DynRecord
deriving DecidableEq

/-- pandas `df.empty`: true when either axis has length zero. -/
def DF.isEmpty (df : DF) : Bool := df.rows.isEmpty || df.cols.isEmpty

/-- The empty dataframe built in the two exception handlers of `load_data`
(lines 148-152 and 156-160): zero rows, the full expected column set. -/
def emptyDF : DF := ⟨EXPECTED_COLUMNS, []⟩

/-- The per-column default of the normalization loop (line 136):
`""` for `name`/`region`, `0` otherwise. -/
def columnDefault (col : String) : Val :=
  if col == "name" || col == "region" then .str "" else .num 0

/-- `df[col] = default` for one missing column: appended to the column
list, bound in every row. -/
def addMissingColumn (df : DF) (col : String) : DF :=
  if df.cols.contains col then df
  else ⟨df.cols ++ [col], df.rows.map (fun r => r ++ [(col, columnDefault col)])⟩

/-- Lines 133-136: ensure every expected column exists. -/
def ensureColumns (df : DF) : DF :=
  EXPECTED_COLUMNS.foldl addMissingColumn df

/-- Rebind a key of a record in place (the row update of `astype`). -/
def dynSet : DynRecord → String → Val → DynRecord
  | [], k, v => [(k, v)]
  | (k0, v0) :: rest, k, v =>
      if k0 == k then (k, v) :: rest else (k0, v0) :: dynSet rest k v

/-- Lines 138-142: `df["customer_id"] = df["customer_id"].astype(int)`,
left unchanged when the conversion of any value fails. -/
def castCustomerIdInt (df : DF) : DF :=
  match df.rows.mapM (fun r =>
      ((pyInt (dynGet r "customer_id" (.num 0))).toOption).map
        (fun n => dynSet r "customer_id" (.num (n : ℚ)))) with
  | some rows2 => ⟨df.cols, rows2⟩
  | none => df

/-- The schema normalization applied to a freshly read dataframe. -/
def normalizeDF (df : DF) : DF := castCustomerIdInt (ensureColumns df)

/-- What the external world would yield to `load_data`.

* `localFile`: `none` when `CUSTOMER_DATA` does not exist on disk; otherwise
  the outcome of `pd.read_csv` on it (`Except.error` = a raised parse error).
* `minio`: `none` when the MinIO client cannot be built or the download
  fails; otherwise the outcome of `pd.read_csv` on the downloaded file.
* `db`: the table a relational-database source would yield.  The spec lists
  such a source in the fallback chain, but `src/app/main.py` contains no
  database code at all, so `load_data` below never consults this field;
  it exists only so that the claimed chain can be stated and compared. -/
instance {ε α : Type} [DecidableEq ε] [DecidableEq α] :
    DecidableEq (Except ε α) := fun a b =>
  match a, b with
  | .ok x, .ok y =>
      if h : x = y then .isTrue (by rw [h]) else .isFalse (by simp [h])
  | .error x, .error y =>
      if h : x = y then .isTrue (by rw [h]) else .isFalse (by simp [h])
  | .ok _, .error _ => .isFalse (by simp)
  | .error _, .ok _ => .isFalse (by simp)

structure Env where
  localFile : Option (Except String DF)
  minio : Option (Except String DF)
  db : Option DF
deriving DecidableEq

/-- `ensure_customer_data_available` composed with `pd.read_csv` and the
exception handlers of `load_data` (lines 93-161): the local file is
preferred by existence (not by parseability), then the MinIO download;
every failure is caught and yields the empty dataframe.  Note that when the
local file exists but fails to parse, the MinIO source is never attempted:
`ensure_customer_data_available` has already returned its path. -/
def load_fresh (env : Env) : DF :=
  match env.localFile with
  | some (.ok df) => normalizeDF df
  | some (.error _) => emptyDF
  | none =>
      match env.minio with
      | some (.ok df) => normalizeDF df
      | some (.error _) => emptyDF
      | none => emptyDF

/-- `load_data` (lines 120-161): return a populated cache unchanged;
an absent or empty cache triggers a fresh load whose result (possibly the
empty dataframe) is cached. -/
def load_data (env : Env) (cache : Option DF) : DF × Option DF :=
  match cache with
  | some df =>
      if !df.isEmpty then (df, some df)
      else (load_fresh env, some (load_fresh env))
  | none => (load_fresh env, some (load_fresh env))

/-- Modelled from the claim (C4), for comparison with `load_data`: a load
that attempts the local file, the object store and then a relational
database, using the first source that succeeds (exists and parses), and
that falls back to the empty dataframe only when every source fails. -/
def load_data_claimed (env : Env) (cache : Option DF) : DF × Option DF :=
  let fetched : Option DF :=
    match env.localFile with
    | some (.ok df) => some df
    | _ =>
        match env.minio with
        | some (.ok df) => some df
        | _ => env.db
  let fresh : DF := match fetched with
    | some df => normalizeDF df
    | none => emptyDF
  match cache with
  | some df => if !df.isEmpty then (df, some df) else (fresh, some fresh)
  | none => (fresh, some fresh)

/-! ## Concrete inputs used by counterexamples and witnesses -/

/-- A record whose spend field is a non-numeric string: `float("abc")`
raises `ValueError` in Python. -/
def malformedCustomer : DynRecord := [("avg_monthly_spend", Val.str "abc")]

/-- A one-row dataframe with the full expected schema. -/
def sampleDF : DF :=
  ⟨EXPECTED_COLUMNS,
   [[("customer_id", Val.num 7), ("name", Val.str "n"), ("region", Val.str "r"),
     ("avg_monthly_data_gb", Val.num 5), ("avg_monthly_minutes", Val.num 100),
     ("avg_monthly_sms", Val.num 50), ("avg_monthly_spend", Val.num 399)]]⟩

/-- No source is available at all. -/
def noSourceEnv : Env := ⟨none, none, none⟩

/-- Local file and object store unavailable; only the relational database
named by the spec would yield data. -/
def dbOnlyEnv : Env := ⟨none, none, some sampleDF⟩

/-- Default query parameters: no region, no sort/order override, limit 10. -/
def defaultParams : Params := ⟨none, none, none, 10⟩

/-- Query parameters carrying `limit=-1` (the string `"-1"` parses fine in
`int(request.args.get("limit", 10))`). -/
def limNegParams : Params := ⟨none, none, none, -1⟩

def outA : OutRec := ⟨1, "a", "re", "Basic", 199, 200, "x"⟩
def outB : OutRec := ⟨2, "b", "re", "Basic", 199, 300, "y"⟩

def custA : Customer := ⟨1, "a", "re", 5, 100, 50, 399⟩
def custB : Customer := ⟨2, "b", "re", 120, 2500, 1200, 1299⟩

/-! # Theorems -/

/-! ## Bridge between the dynamic and the typed recommender -/

theorem ratTrunc_intCast (n : ℤ) : ratTrunc (n : ℚ) = n := by
  simp [ratTrunc]

/-- On a well-typed row, `recommend_plan` succeeds and computes
`recommendC`: the dynamic and the typed embedding agree. -/
theorem recommend_plan_toDyn (c : Customer) :
    recommend_plan c.toDyn = .ok (recommendC c) := by
  simp [recommend_plan, Customer.toDyn, dynGet, List.lookup, pyFloat, pyInt,
    ratTrunc_intCast, recommendC]

/-! ## Plan-selection lemmas -/

theorem selectPlan_basic {data mins sms : ℚ}
    (h : data < 8 ∧ mins < 300 ∧ sms < 150) :
    selectPlan data mins sms = basicPlan := by
  simp [selectPlan, h]

theorem selectPlan_standard {data mins sms : ℚ}
    (h1 : ¬(data < 8 ∧ mins < 300 ∧ sms < 150))
    (h2 : data < 80 ∧ mins < 1500 ∧ sms < 1000) :
    selectPlan data mins sms = standardPlan := by
  simp [selectPlan, h1, h2]

theorem selectPlan_premium {data mins sms : ℚ}
    (h1 : ¬(data < 8 ∧ mins < 300 ∧ sms < 150))
    (h2 : ¬(data < 80 ∧ mins < 1500 ∧ sms < 1000)) :
    selectPlan data mins sms = premiumPlan := by
  simp [selectPlan, h1, h2]

theorem recommendC_plan_name (c : Customer) :
    (recommendC c).recommended_plan =
      (selectPlan c.avg_monthly_data_gb c.avg_monthly_minutes
        c.avg_monthly_sms).name := rfl

/-! ## Length lemmas for the pipeline -/

theorem insertSorted_length {α : Type} (le : α → α → Bool) (a : α)
    (l : List α) : (insertSorted le a l).length = l.length + 1 := by
  induction l with
  | nil => rfl
  | cons b bs ih =>
      simp only [insertSorted]
      split
      · simp
      · simp [ih]

theorem insertionSort_length {α : Type} (le : α → α → Bool) (l : List α) :
    (insertionSort le l).length = l.length := by
  induction l with
  | nil => rfl
  | cons a as ih => simp [insertionSort, insertSorted_length, ih]

theorem sortStep_length {α : Type} (colPresent : String → Bool)
    (asc : String → α → α → Bool) (p : Params) (dSort dOrder : String)
    (l : List α) :
    (sortStep colPresent asc p dSort dOrder l).length = l.length := by
  simp only [sortStep]
  split
  · rfl
  · split
    · exact insertionSort_length ..
    · rfl

theorem pySlice_length_of_nonneg {α : Type} (l : List α) {n : ℤ}
    (h : 0 ≤ n) : ((pySlice l n).length : ℤ) = min n (l.length : ℤ) := by
  simp only [pySlice, if_pos h, List.length_take]
  rw [Nat.cast_min, Int.toNat_of_nonneg h]

/-! ## The claims -/

/-- C1: for every customer record, `recommend_plan` selects the plan by the
priority chain with strict thresholds — Basic when data < 8 and minutes < 300
and sms < 150; otherwise Standard when data < 80 and minutes < 1500 and
sms < 1000; otherwise Premium; in particular a customer sitting exactly on a
Basic boundary (data = 8, minutes = 300 or sms = 150) that is within the
Standard bounds is recommended Standard, not Basic.  The first conjunct ties
the typed form `recommendC` to the source-level `recommend_plan`. -/
theorem C1_plan_selection_chain (c : Customer) :
    recommend_plan c.toDyn = .ok (recommendC c)
    ∧ (c.avg_monthly_data_gb < 8 ∧ c.avg_monthly_minutes < 300 ∧
        c.avg_monthly_sms < 150 →
        (recommendC c).recommended_plan = "Basic")
    ∧ (¬(c.avg_monthly_data_gb < 8 ∧ c.avg_monthly_minutes < 300 ∧
          c.avg_monthly_sms < 150) ∧
        c.avg_monthly_data_gb < 80 ∧ c.avg_monthly_minutes < 1500 ∧
        c.avg_monthly_sms < 1000 →
        (recommendC c).recommended_plan = "Standard")
    ∧ (¬(c.avg_monthly_data_gb < 8 ∧ c.avg_monthly_minutes < 300 ∧
          c.avg_monthly_sms < 150) ∧
        ¬(c.avg_monthly_data_gb < 80 ∧ c.avg_monthly_minutes < 1500 ∧
          c.avg_monthly_sms < 1000) →
        (recommendC c).recommended_plan = "Premium")
    ∧ ((c.avg_monthly_data_gb = 8 ∨ c.avg_monthly_minutes = 300 ∨
          c.avg_monthly_sms = 150) ∧
        c.avg_monthly_data_gb < 80 ∧ c.avg_monthly_minutes < 1500 ∧
        c.avg_monthly_sms < 1000 →
        (recommendC c).recommended_plan = "Standard") := by
  refine ⟨recommend_plan_toDyn c, ?_, ?_, ?_, ?_⟩
  · intro h
    rw [recommendC_plan_name, selectPlan_basic h]
    rfl
  · intro ⟨h1, h2⟩
    rw [recommendC_plan_name, selectPlan_standard h1 h2]
    rfl
  · intro ⟨h1, h2⟩
    rw [recommendC_plan_name, selectPlan_premium h1 h2]
    rfl
  · intro ⟨hb, h2⟩
    have h1 : ¬(c.avg_monthly_data_gb < 8 ∧ c.avg_monthly_minutes < 300 ∧
        c.avg_monthly_sms < 150) := by
      rcases hb with h | h | h <;> intro hh <;>
        [exact absurd hh.1 (by rw [h]; exact lt_irrefl 8);
         exact absurd hh.2.1 (by rw [h]; exact lt_irrefl 300);
         exact absurd hh.2.2 (by rw [h]; exact lt_irrefl 150)]
    rw [recommendC_plan_name, selectPlan_standard h1 h2]
    rfl

/-- C2: the recommendation's `estimated_monthly_bill` is the selected plan's
catalog price and `estimated_savings` is `round(spend - price, 2)`; the
selected plan is a catalog entry; and the worked example (data 5, minutes
100, sms 50, spend 399) yields Basic, bill 199, savings 200.00, whatever its
id, name and region.  The first conjunct ties `recommendC` to the
source-level `recommend_plan`. -/
theorem C2_bill_and_savings (c : Customer) (cid : ℤ) (nm rg : String) :
    recommend_plan c.toDyn = .ok (recommendC c)
    ∧ (recommendC c).estimated_monthly_bill =
        (selectPlan c.avg_monthly_data_gb c.avg_monthly_minutes
          c.avg_monthly_sms).price
    ∧ selectPlan c.avg_monthly_data_gb c.avg_monthly_minutes
        c.avg_monthly_sms ∈ PLAN_CATALOG
    ∧ (recommendC c).estimated_savings =
        round2 (c.avg_monthly_spend -
          (selectPlan c.avg_monthly_data_gb c.avg_monthly_minutes
            c.avg_monthly_sms).price)
    ∧ (recommendC ⟨cid, nm, rg, 5, 100, 50, 399⟩).recommended_plan = "Basic"
    ∧ (recommendC ⟨cid, nm, rg, 5, 100, 50, 399⟩).estimated_monthly_bill = 199
    ∧ (recommendC ⟨cid, nm, rg, 5, 100, 50, 399⟩).estimated_savings = 200 := by
  refine ⟨recommend_plan_toDyn c, rfl, ?_, rfl, ?_, ?_, ?_⟩
  · simp only [selectPlan, PLAN_CATALOG]
    split
    · simp
    · split <;> simp
  · rw [recommendC_plan_name]
    have : selectPlan (5 : ℚ) 100 50 = basicPlan := selectPlan_basic (by norm_num)
    rw [this]
    rfl
  · show (selectPlan (5 : ℚ) 100 50).price = 199
    rw [selectPlan_basic (by norm_num)]
    rfl
  · show round2 ((399 : ℚ) - (selectPlan (5 : ℚ) 100 50).price) = 200
    rw [selectPlan_basic (by norm_num)]
    show round2 ((399 : ℚ) - 199) = 200
    norm_num [round2, pyRound]

/-- C3 counterexample: the claim says `recommend_plan` never fails and
coerces malformed numeric fields to `0.0`; but on a record whose
`avg_monthly_spend` is the string `"abc"`, `float("abc")` raises
`ValueError`, so `recommend_plan` errors instead of returning a
recommendation. -/
theorem C3_counterexample :
    recommend_plan malformedCustomer =
      .error "could not convert string to float: abc" := rfl

/-- C3 as amended: `recommend_plan` returns a recommendation for every
record whose present numeric fields are convertible (in particular numbers,
or absent fields, which take the defaults); a record with all relevant
fields missing yields the recommendation computed from usage `0` and id
`-1`.  Fields present with a non-convertible value raise instead (see the
counterexample), so totality holds only under these hypotheses. -/
theorem C3_total_on_convertible_fields (r rm : DynRecord)
    (h1 : ∃ q, pyFloat (dynGet r "avg_monthly_data_gb" (.num 0)) = .ok q)
    (h2 : ∃ q, pyFloat (dynGet r "avg_monthly_minutes" (.num 0)) = .ok q)
    (h3 : ∃ q, pyFloat (dynGet r "avg_monthly_sms" (.num 0)) = .ok q)
    (h4 : ∃ q, pyFloat (dynGet r "avg_monthly_spend" (.num 0)) = .ok q)
    (h5 : ∃ n, pyInt (dynGet r "customer_id" (.num (-1))) = .ok n)
    (hm : ∀ k, List.lookup k rm = none) :
    (∃ out, recommend_plan r = .ok out)
    ∧ recommend_plan rm = .ok (mkRecommendation (-1) 0 0 0 0) := by
  obtain ⟨q1, e1⟩ := h1
  obtain ⟨q2, e2⟩ := h2
  obtain ⟨q3, e3⟩ := h3
  obtain ⟨q4, e4⟩ := h4
  obtain ⟨n5, e5⟩ := h5
  constructor
  · refine ⟨mkRecommendation n5 q1 q2 q3 q4, ?_⟩
    rw [recommend_plan, e1, e2, e3, e4, e5]
  · have hget : ∀ k d, dynGet rm k d = d := by
      intro k d
      rw [dynGet, hm k]
      rfl
    rw [recommend_plan]
    simp only [hget]
    have : pyInt (.num (-1)) = .ok (-1) := by decide
    rw [this]
    rfl

/-- C3 witness: the empty record satisfies every hypothesis of the amended
claim: all fields are missing, so all coercions succeed on the defaults. -/
theorem C3_totality_witness :
    (∃ out, recommend_plan [] = .ok out)
    ∧ recommend_plan [] = .ok (mkRecommendation (-1) 0 0 0 0) :=
  C3_total_on_convertible_fields [] []
    ⟨0, rfl⟩ ⟨0, rfl⟩ ⟨0, rfl⟩ ⟨0, rfl⟩ ⟨-1, by decide⟩ (fun _ => rfl)

/-- C10: a record with no `customer_id` field gets id `-1` (the `int`
default, not the `0` used for the usage fields), the remaining fields being
computed exactly as for any other record. -/
theorem C10_missing_id_defaults (r : DynRecord) (d m s sp : ℚ)
    (h0 : List.lookup "customer_id" r = none)
    (h1 : pyFloat (dynGet r "avg_monthly_data_gb" (.num 0)) = .ok d)
    (h2 : pyFloat (dynGet r "avg_monthly_minutes" (.num 0)) = .ok m)
    (h3 : pyFloat (dynGet r "avg_monthly_sms" (.num 0)) = .ok s)
    (h4 : pyFloat (dynGet r "avg_monthly_spend" (.num 0)) = .ok sp) :
    recommend_plan r = .ok (mkRecommendation (-1) d m s sp)
    ∧ (mkRecommendation (-1) d m s sp).customer_id = -1
    ∧ ((-1 : ℤ) ≠ 0) := by
  refine ⟨?_, rfl, by decide⟩
  have hid : dynGet r "customer_id" (.num (-1)) = .num (-1) := by
    rw [dynGet, h0]
    rfl
  rw [recommend_plan, h1, h2, h3, h4, hid]
  have : pyInt (.num (-1)) = .ok (-1) := by decide
  rw [this]

/-- C10 witness: a concrete record carrying only a data field. -/
theorem C10_missing_id_witness :
    recommend_plan [("avg_monthly_data_gb", Val.num 3)] =
      .ok (mkRecommendation (-1) 3 0 0 0)
    ∧ (mkRecommendation (-1) 3 0 0 0).customer_id = -1
    ∧ ((-1 : ℤ) ≠ 0) :=
  C10_missing_id_defaults [("avg_monthly_data_gb", Val.num 3)] 3 0 0 0
    (by decide) rfl rfl rfl rfl

/-- C4 counterexample: the claim lists a relational-database source in the
fallback chain, but the code has none.  In an environment where the local
file and the object store are unavailable while the (spec-claimed) database
would yield a one-row table, the code returns the zero-row table whereas
the claimed chain would return the database table. -/
theorem C4_counterexample :
    (load_data dbOnlyEnv none).1 ≠ (load_data_claimed dbOnlyEnv none).1
    ∧ (load_data dbOnlyEnv none).1.rows = []
    ∧ (load_data_claimed dbOnlyEnv none).1.rows ≠ [] :=
  ⟨by decide, rfl, by decide⟩

/-- C4 as amended: over an uninitialized or empty cache, `load_data`
attempts the local/mounted file and then the object-store download (there
is no relational-database source); the first available source populates the
cache with its parsed table; every source failure is absorbed; and when no
source is available — or the first available one fails to parse — it
returns, and caches, the zero-row table with the full expected column set,
never raising. -/
theorem C4_fallback_chain (env : Env) (cache : Option DF)
    (hc : cache = none ∨ ∃ df, cache = some df ∧ df.isEmpty = true) :
    (load_data env cache).2 = some (load_data env cache).1
    ∧ (∀ df, env.localFile = some (.ok df) →
        (load_data env cache).1 = normalizeDF df)
    ∧ (∀ e, env.localFile = some (.error e) →
        (load_data env cache).1 = emptyDF)
    ∧ (env.localFile = none →
        (∀ df, env.minio = some (.ok df) →
          (load_data env cache).1 = normalizeDF df)
        ∧ (∀ e, env.minio = some (.error e) →
          (load_data env cache).1 = emptyDF)
        ∧ (env.minio = none → (load_data env cache).1 = emptyDF))
    ∧ emptyDF.rows = [] ∧ emptyDF.cols = EXPECTED_COLUMNS := by
  have hload : load_data env cache = (load_fresh env, some (load_fresh env)) := by
    rcases hc with rfl | ⟨df, rfl, hdf⟩
    · rfl
    · simp [load_data, hdf]
  rw [hload]
  refine ⟨rfl, ?_, ?_, ?_, rfl, rfl⟩
  · intro df h
    simp [load_fresh, h]
  · intro e h
    simp [load_fresh, h]
  · intro h
    refine ⟨?_, ?_, ?_⟩
    · intro df h2
      simp [load_fresh, h, h2]
    · intro e h2
      simp [load_fresh, h, h2]
    · intro h2
      simp [load_fresh, h, h2]

/-- C4 witness: the all-sources-fail environment over an uninitialized
cache. -/
theorem C4_fallback_witness :
    (load_data noSourceEnv none).2 = some (load_data noSourceEnv none).1
    ∧ (∀ df, noSourceEnv.localFile = some (.ok df) →
        (load_data noSourceEnv none).1 = normalizeDF df)
    ∧ (∀ e, noSourceEnv.localFile = some (.error e) →
        (load_data noSourceEnv none).1 = emptyDF)
    ∧ (noSourceEnv.localFile = none →
        (∀ df, noSourceEnv.minio = some (.ok df) →
          (load_data noSourceEnv none).1 = normalizeDF df)
        ∧ (∀ e, noSourceEnv.minio = some (.error e) →
          (load_data noSourceEnv none).1 = emptyDF)
        ∧ (noSourceEnv.minio = none → (load_data noSourceEnv none).1 = emptyDF))
    ∧ emptyDF.rows = [] ∧ emptyDF.cols = EXPECTED_COLUMNS :=
  C4_fallback_chain noSourceEnv none (Or.inl rfl)

/-- C5: a populated (non-empty) cache is returned unchanged by `load_data`
with no source consulted — the result does not depend on the environment,
and a second load returns the same table — while a cached zero-row table
behaves exactly like an uninitialized cache and triggers a fresh load. -/
theorem C5_cache_policy (env env2 : Env) (df dfe : DF)
    (h : df.isEmpty = false) (he : dfe.rows = []) :
    load_data env (some df) = (df, some df)
    ∧ (load_data env2 (load_data env (some df)).2).1 = df
    ∧ load_data env (some dfe) = load_data env none := by
  have h1 : load_data env (some df) = (df, some df) := by
    simp [load_data, h]
  have h2 : load_data env2 (some df) = (df, some df) := by
    simp [load_data, h]
  refine ⟨h1, ?_, ?_⟩
  · rw [h1, h2]
  · have : dfe.isEmpty = true := by
      simp [DF.isEmpty, he]
    simp [load_data, this]

/-- C5 witness: a concrete one-row cache is returned unchanged twice, and
the cached empty table reloads like an uninitialized cache. -/
theorem C5_cache_witness :
    load_data noSourceEnv (some sampleDF) = (sampleDF, some sampleDF)
    ∧ (load_data dbOnlyEnv (load_data noSourceEnv (some sampleDF)).2).1 = sampleDF
    ∧ load_data noSourceEnv (some emptyDF) = load_data noSourceEnv none :=
  C5_cache_policy noSourceEnv dbOnlyEnv sampleDF emptyDF (by decide) rfl

/-- C6: sign classification of `estimated_savings` is a partition: exactly
one of `> 0`, `< 0`, `= 0` holds for every customer; the savings view keeps
exactly the rows with positive savings and the upsell view exactly those
with negative savings; an entry is never in both (so a zero-savings row is
in neither). -/
theorem C6_sign_partition (rows : List Customer) (c : Customer) (e : OutRec) :
    ((0 < (recommendC c).estimated_savings ∨
        (recommendC c).estimated_savings < 0 ∨
        (recommendC c).estimated_savings = 0)
      ∧ ¬(0 < (recommendC c).estimated_savings ∧
          (recommendC c).estimated_savings < 0)
      ∧ ¬(0 < (recommendC c).estimated_savings ∧
          (recommendC c).estimated_savings = 0)
      ∧ ¬((recommendC c).estimated_savings < 0 ∧
          (recommendC c).estimated_savings = 0))
    ∧ (e ∈ top_savings_rows rows ↔
        ∃ c2 ∈ rows, 0 < (recommendC c2).estimated_savings ∧
          e = mkOut c2 (recommendC c2))
    ∧ (e ∈ top_upsell_rows rows ↔
        ∃ c2 ∈ rows, (recommendC c2).estimated_savings < 0 ∧
          e = mkOut c2 (recommendC c2))
    ∧ ¬(e ∈ top_savings_rows rows ∧ e ∈ top_upsell_rows rows) := by
  have hs : ∀ x : OutRec, x ∈ top_savings_rows rows ↔
      ∃ c2 ∈ rows, 0 < (recommendC c2).estimated_savings ∧
        x = mkOut c2 (recommendC c2) := by
    intro x
    rw [top_savings_rows, List.mem_filterMap]
    constructor
    · rintro ⟨c2, hc2, hf⟩
      by_cases hpos : 0 < (recommendC c2).estimated_savings
      · rw [if_pos hpos] at hf
        exact ⟨c2, hc2, hpos, (Option.some.inj hf).symm⟩
      · rw [if_neg hpos] at hf
        exact absurd hf (by simp)
    · rintro ⟨c2, hc2, hpos, rfl⟩
      exact ⟨c2, hc2, by rw [if_pos hpos]⟩
  have hu : ∀ x : OutRec, x ∈ top_upsell_rows rows ↔
      ∃ c2 ∈ rows, (recommendC c2).estimated_savings < 0 ∧
        x = mkOut c2 (recommendC c2) := by
    intro x
    rw [top_upsell_rows, List.mem_filterMap]
    constructor
    · rintro ⟨c2, hc2, hf⟩
      by_cases hneg : (recommendC c2).estimated_savings < 0
      · rw [if_pos hneg] at hf
        exact ⟨c2, hc2, hneg, (Option.some.inj hf).symm⟩
      · rw [if_neg hneg] at hf
        exact absurd hf (by simp)
    · rintro ⟨c2, hc2, hneg, rfl⟩
      exact ⟨c2, hc2, by rw [if_pos hneg]⟩
  refine ⟨⟨?_, ?_, ?_, ?_⟩, hs e, hu e, ?_⟩
  · rcases lt_trichotomy 0 ((recommendC c).estimated_savings) with h | h | h
    · exact Or.inl h
    · exact Or.inr (Or.inr h.symm)
    · exact Or.inr (Or.inl h)
  · rintro ⟨h1, h2⟩
    linarith
  · rintro ⟨h1, h2⟩
    linarith
  · rintro ⟨h1, h2⟩
    linarith
  · rintro ⟨hmem1, hmem2⟩
    obtain ⟨c2, _, hpos, he2⟩ := (hs e).mp hmem1
    obtain ⟨c3, _, hneg, he3⟩ := (hu e).mp hmem2
    have hsav : (recommendC c2).estimated_savings =
        (recommendC c3).estimated_savings :=
      congrArg OutRec.estimated_savings (he2.symm.trans he3)
    linarith

/-- C7 counterexample: the pagination invariant `page length = min(limit,
total)` fails for a negative limit, which the query string `limit=-1` can
produce: Python `results[:-1]` keeps one of two records, while
`min(-1, 2) = -1`. -/
theorem C7_counterexample :
    ¬(((apply_filters_sort_limit OutRec.region outColPresent outAsc
          "estimated_savings" "desc" limNegParams false [outA, outB]).1.length : ℤ)
        = min limNegParams.limit
            ((apply_filters_sort_limit OutRec.region outColPresent outAsc
              "estimated_savings" "desc" limNegParams false [outA, outB]).2 : ℤ)) := by
  decide

/-- C7 as amended: for every filtered result list and every *non-negative*
limit, the page has length `min(limit, total)` and the returned total is
the filtered, pre-truncation count (the region-filtered list's length,
which sorting preserves). -/
theorem C7_pagination_invariant {α : Type} (regionOf : α → String)
    (colPresent : String → Bool) (asc : String → α → α → Bool)
    (dSort dOrder : String) (p : Params) (dfEmpty : Bool) (results : List α)
    (h : 0 ≤ p.limit) :
    (((apply_filters_sort_limit regionOf colPresent asc dSort dOrder p
          dfEmpty results).1.length : ℤ)
      = min p.limit
          ((apply_filters_sort_limit regionOf colPresent asc dSort dOrder p
            dfEmpty results).2 : ℤ))
    ∧ (apply_filters_sort_limit regionOf colPresent asc dSort dOrder p
        dfEmpty results).2
      = (filteredResults regionOf p dfEmpty results).length := by
  constructor
  · rw [apply_filters_sort_limit, pySlice_length_of_nonneg _ h, sortStep_length]
  · rw [apply_filters_sort_limit, sortStep_length]

/-- C7 witness: the invariant at limit 10 over two concrete records. -/
theorem C7_pagination_witness :
    (((apply_filters_sort_limit OutRec.region outColPresent outAsc
          "estimated_savings" "desc" defaultParams false [outA, outB]).1.length : ℤ)
      = min defaultParams.limit
          ((apply_filters_sort_limit OutRec.region outColPresent outAsc
            "estimated_savings" "desc" defaultParams false [outA, outB]).2 : ℤ))
    ∧ (apply_filters_sort_limit OutRec.region outColPresent outAsc
        "estimated_savings" "desc" defaultParams false [outA, outB]).2
      = (filteredResults OutRec.region defaultParams false [outA, outB]).length :=
  C7_pagination_invariant OutRec.region outColPresent outAsc
    "estimated_savings" "desc" defaultParams false [outA, outB] (by decide)

/-- C8 counterexample: the claim says every query endpoint answers an empty
dataset with a 200-equivalent empty collection; but `top_savings` on the
zero-row table returns the 404-equivalent error `"No data loaded"`. -/
theorem C8_counterexample :
    top_savings_endpoint [] defaultParams = .notFound "No data loaded" := rfl

/-- C8 as amended: only the customer-listing endpoint answers an empty
dataset with an empty 200 collection; `recommend`, `top_savings`,
`top_upsell` and `summary_stats` return a 404-equivalent error on the empty
table, and `summary_stats` also when the region filter matches no rows.  A
filter matching no rows on a non-empty table yields an empty 200 collection
on the listing and drill-down endpoints. -/
theorem C8_empty_dataset_responses (rows : List Customer) (p : Params)
    (cid : ℤ) :
    customers_endpoint [] p = .ok ([], 0)
    ∧ top_savings_endpoint [] p = .notFound "No data loaded"
    ∧ top_upsell_endpoint [] p = .notFound "No data loaded"
    ∧ recommend_endpoint [] cid = .notFound "No data loaded"
    ∧ summary_stats_endpoint [] p = .notFound "No data loaded"
    ∧ (filteredResults Customer.region p rows.isEmpty rows = [] →
        customers_endpoint rows p = .ok ([], 0))
    ∧ (rows ≠ [] →
        filteredResults OutRec.region p rows.isEmpty (top_savings_rows rows) = [] →
        top_savings_endpoint rows p = .ok ([], 0))
    ∧ (rows ≠ [] →
        filteredResults OutRec.region p rows.isEmpty (top_upsell_rows rows) = [] →
        top_upsell_endpoint rows p = .ok ([], 0))
    ∧ (rows ≠ [] → truthy p.region = true →
        rows.filter (fun r => lowerStr r.region == lowerStr (p.region.getD "")) = [] →
        summary_stats_endpoint rows p =
          .notFound ("No data found for region " ++ p.region.getD "")) := by
  refine ⟨rfl, rfl, rfl, rfl, rfl, ?_, ?_, ?_, ?_⟩
  · intro hfil
    by_cases hr : rows.isEmpty
    · simp [customers_endpoint, hr]
    · have hr2 : rows.isEmpty = false := by simpa using hr
      rw [hr2] at hfil
      simp only [customers_endpoint, hr2, Bool.false_eq_true, if_false,
        apply_filters_sort_limit, hfil, sortStep, List.isEmpty_nil, if_true,
        pySlice, List.take_nil, List.length_nil, ite_self]
  · intro hne hfil
    have hr : rows.isEmpty = false := by
      simpa [List.isEmpty_iff] using hne
    rw [hr] at hfil
    simp only [top_savings_endpoint, hr, Bool.false_eq_true, if_false,
      apply_filters_sort_limit, hfil, sortStep, List.isEmpty_nil, if_true,
      pySlice, List.take_nil, List.length_nil, ite_self]
  · intro hne hfil
    have hr : rows.isEmpty = false := by
      simpa [List.isEmpty_iff] using hne
    rw [hr] at hfil
    simp only [top_upsell_endpoint, hr, Bool.false_eq_true, if_false,
      apply_filters_sort_limit, hfil, sortStep, List.isEmpty_nil, if_true,
      pySlice, List.take_nil, List.length_nil, ite_self]
  · intro hne htr hfil
    have hr : rows.isEmpty = false := by
      simpa [List.isEmpty_iff] using hne
    simp [summary_stats_endpoint, hr, htr, hfil]

/-- C9: the single-recommendation query is deterministic under duplicate
ids and fails only on absence: when some row matches the requested id, the
response is the recommendation of the *first* matching row; when none does
(including the empty table), the response is a 404-equivalent error. -/
theorem C9_query_by_id (rows : List Customer) (cid : ℤ) :
    (∀ r, rows.find? (fun x => x.customer_id == cid) = some r →
        recommend_endpoint rows cid = .ok (recommendC r))
    ∧ (rows.find? (fun x => x.customer_id == cid) = none →
        recommend_endpoint rows cid = .notFound
          (if rows.isEmpty then "No data loaded" else "Customer not found")) := by
  by_cases hr : rows.isEmpty
  · have : rows = [] := by simpa [List.isEmpty_iff] using hr
    subst this
    constructor
    · intro r h
      simp [List.find?] at h
    · intro _
      rfl
  · constructor
    · intro r h
      simp [recommend_endpoint, hr, h]
    · intro h
      simp [recommend_endpoint, hr, h]

/-! ## Sanity checks: the remaining worked examples of the spec -/

theorem standard_tier_example :
    (recommendC ⟨2, "", "", 40, 800, 300, 699⟩).recommended_plan = "Standard"
    ∧ (recommendC ⟨2, "", "", 40, 800, 300, 699⟩).estimated_monthly_bill = 499
    ∧ (recommendC ⟨2, "", "", 40, 800, 300, 699⟩).estimated_savings = 200 :=
  ⟨by decide, by decide, by
    norm_num [recommendC, mkRecommendation, selectPlan, basicPlan,
      standardPlan, premiumPlan, round2, pyRound]⟩

theorem premium_tier_example :
    (recommendC ⟨3, "", "", 120, 2500, 1200, 1299⟩).recommended_plan = "Premium"
    ∧ (recommendC ⟨3, "", "", 120, 2500, 1200, 1299⟩).estimated_monthly_bill = 999
    ∧ (recommendC ⟨3, "", "", 120, 2500, 1200, 1299⟩).estimated_savings = 300 :=
  ⟨by decide, by decide, by
    norm_num [recommendC, mkRecommendation, selectPlan, basicPlan,
      standardPlan, premiumPlan, round2, pyRound]⟩

end PlanApp
